import Mathlib

/-
Verification of PyIRTAM (src/PyIRTAM/lib.py) against its natural-language
specification.  The Python library is shallowly embedded: numpy arrays become
functions out of Fin types, float values become real numbers (rationals where
claims need computation), NaN-able fields become Option values, and fallible
file access becomes an Except-valued function over an abstract read-only file
system.  External PyIRI primitives (fexp, the Epstein functions, the
climatological diurnal basis) are not part of this repository; they are
modelled from the spec where needed and clearly marked as such.
-/

namespace PyIRTAM

/-! ## Coefficient record reshape (IRTAM_read_files, lib.py lines 329-346) -/

/-- Slice of the first 988 values of a 1064-value coefficient record,
mirroring array_main = full_array[0:988]. -/
def array_main {α : Type} (full : Fin 1064 → α) : Fin 988 → α :=
  fun i => full ⟨i.1, by omega⟩

/-- Slice of the final 76 values of a 1064-value coefficient record,
mirroring array_add = full_array[988:]. -/
def array_add {α : Type} (full : Fin 1064 → α) : Fin 76 → α :=
  fun k => full ⟨988 + k.1, by omega⟩

/-- Column-major (order F) reshape of the 988 leading values into a
[13, 76] matrix: entry (j, k) is flat element j + 13 * k.  Mirrors
np.reshape(array_main, (13, 76), order F). -/
def F_CCIR_like {α : Type} (m : Fin 988 → α) : Fin 13 → Fin 76 → α :=
  fun j k => m ⟨j.1 + 13 * k.1, by omega⟩

/-- The [14, 76] IRTAM coefficient matrix built from a 1064-value record:
row 0 is row 0 of the reshaped [13, 76] matrix, row 1 is the 76 trailing
values, rows 2..13 are rows 1..12 of the reshaped matrix.  Mirrors
lib.py lines 341-344. -/
def F_IRTAM_of {α : Type} (full : Fin 1064 → α) : Fin 14 → Fin 76 → α :=
  fun j k =>
    if j.1 = 0 then F_CCIR_like (array_main full) 0 k
    else if j.1 = 1 then array_add full k
    else F_CCIR_like (array_main full) ⟨j.1 - 1, by omega⟩ k

/-! ## Diurnal basis (IRTAM_diurnal_functions, lib.py lines 191-206) -/

/-- Modelled from the spec: the climatological diurnal basis of the external
background model (PyIRI set_diurnal_functions is not part of this
repository).  Thirteen Fourier-harmonic rows in UT: a constant row followed
by alternating sine and cosine harmonics of the hour angle. -/
noncomputable def set_diurnal_functions (t : ℝ) : Fin 13 → ℝ :=
  fun j =>
    if j.1 = 0 then 1
    else if j.1 % 2 = 1 then
      Real.sin ((((j.1 + 1) / 2 : ℕ) : ℝ) * ((15 * t - 180) * Real.pi / 180))
    else
      Real.cos (((j.1 / 2 : ℕ) : ℝ) * ((15 * t - 180) * Real.pi / 180))

/-- The IRTAM diurnal function matrix, one row of 14 diurnal values per time
sample (already transposed to [N_T, 14] as in the source): entry 0 equals
climatological row 0, entry 1 is (UT - TOV) * 60 + 720, entries 2..13 are
climatological rows 1..12.  Mirrors lib.py lines 191-206. -/
noncomputable def IRTAM_diurnal_functions {n : ℕ} (time_array : Fin n → ℝ)
    (TOV : ℝ) : Fin n → Fin 14 → ℝ :=
  fun i j =>
    if j.1 = 0 then set_diurnal_functions (time_array i) 0
    else if j.1 = 1 then (time_array i - TOV) * 60 + 720
    else set_diurnal_functions (time_array i) ⟨j.1 - 1, by omega⟩

/-! ## Parameter synthesis (IRTAM_gamma and IRTAM_density, lib.py 391-397
and 100-102) -/

/-- Matrix product as computed by np.matmul: entry (i, k) is the sum over j
of A i j * B j k. -/
def npMatmul {a b c : ℕ} (A : Matrix (Fin a) (Fin b) ℝ)
    (B : Matrix (Fin b) (Fin c) ℝ) : Matrix (Fin a) (Fin c) ℝ :=
  fun i k => ∑ j, A i j * B j k

/-- Elementwise np.clip: the value is first raised to lo, then capped at
hi. -/
def npClip (x lo hi : ℝ) : ℝ := min (max x lo) hi

/-- The four synthesized parameter maps of IRTAM_gamma: each is
np.matmul(np.matmul(D, F), G) for its coefficient table F.  Mirrors lib.py
lines 391-397. -/
structure ParamMaps (nT nG : ℕ) where
  B0 : Matrix (Fin nT) (Fin nG) ℝ
  B1 : Matrix (Fin nT) (Fin nG) ℝ
  foF2 : Matrix (Fin nT) (Fin nG) ℝ
  hmF2 : Matrix (Fin nT) (Fin nG) ℝ

/-- IRTAM_gamma: numerical maps for B0, B1, foF2 and hmF2 via matrix
multiplication, each (D F) G.  Mirrors lib.py lines 391-397. -/
def IRTAM_gamma {nT nG : ℕ} (G : Matrix (Fin 76) (Fin nG) ℝ)
    (D : Matrix (Fin nT) (Fin 14) ℝ)
    (F_B0 F_B1 F_foF2 F_hmF2 : Matrix (Fin 14) (Fin 76) ℝ) : ParamMaps nT nG :=
  ⟨npMatmul (npMatmul D F_B0) G,
   npMatmul (npMatmul D F_B1) G,
   npMatmul (npMatmul D F_foF2) G,
   npMatmul (npMatmul D F_hmF2) G⟩

/-- The parameter maps returned by IRTAM_density: the IRTAM_gamma outputs
with B1 clipped to [1, 6] and B0 clipped to [1, 350]; foF2 and hmF2 are
returned unclipped.  Mirrors lib.py lines 97-108. -/
def IRTAM_density_maps {nT nG : ℕ} (G : Matrix (Fin 76) (Fin nG) ℝ)
    (D : Matrix (Fin nT) (Fin 14) ℝ)
    (F_B0 F_B1 F_foF2 F_hmF2 : Matrix (Fin 14) (Fin 76) ℝ) : ParamMaps nT nG :=
  let g := IRTAM_gamma G D F_B0 F_B1 F_foF2 F_hmF2
  ⟨fun i k => npClip (g.B0 i k) 1 350,
   fun i k => npClip (g.B1 i k) 1 6,
   g.foF2,
   g.hmF2⟩

/-! ## Frequency to density conversion (IRTAM_freq_to_Nm, lib.py 542-547) -/

/-- Critical frequency to peak plasma density: Nm = 0.124 * f^2 * 1e11, with
any resulting value at most 0 replaced by 1.  Mirrors lib.py lines 542-547. -/
noncomputable def IRTAM_freq_to_Nm (f : ℝ) : ℝ :=
  if 0.124 * f ^ 2 * 1e11 ≤ 0 then 1 else 0.124 * f ^ 2 * 1e11

/-! ## Ramakrishnan-Rawer bottomside (lib.py lines 841-844) -/

/-- Modelled from the spec: the external PyIRI primitive fexp used by the
source; the spec formula for the bottomside uses the plain exponential. -/
noncomputable def fexp (x : ℝ) : ℝ := Real.exp x

/-- Ramakrishnan-Rawer F2 bottomside density: with x = (hmF2 - h) / B0, the
density is NmF2 * fexp (-(sign x * absolute x ^ B1)) / cosh x.  Mirrors
lib.py lines 841-844. -/
noncomputable def Ramakrishnan_Rawer_function (NmF2 hmF2 B0 B1 h : ℝ) : ℝ :=
  let x := (hmF2 - h) / B0
  NmF2 * fexp (-(Real.sign x * |x| ^ B1)) / Real.cosh x

/-! ## EDP builder (IRTAM_EDP_builder, lib.py lines 661-804) -/

/-- Per-grid-point parameter set of the EDP builder: the twelve rows of the
x array (lib.py lines 714-725), in order.  NmF1 and hmF1 may be NaN in the
source (np.isfinite and np.isnan are tested on them); a NaN entry is
embedded as none, and every comparison against it is false, as in IEEE
arithmetic. -/
structure EDPparams where
  NmF2 : ℝ
  NmF1 : Option ℝ
  NmE : ℝ
  hmF2 : ℝ
  hmF1 : Option ℝ
  hmE : ℝ
  B0 : ℝ
  B1 : ℝ
  B_F2_top : ℝ
  B_F1_bot : ℝ
  B_E_bot : ℝ
  B_E_top : ℝ

/-- Comparison hmF1 <= alt of the source: false when hmF1 is NaN. -/
def hm_le : Option ℝ → ℝ → Prop
  | some v, x => v ≤ x
  | none, _ => False

noncomputable instance : ∀ (o : Option ℝ) (x : ℝ), Decidable (hm_le o x)
  | some v, x => inferInstanceAs (Decidable (v ≤ x))
  | none, _ => inferInstanceAs (Decidable False)

/-- Comparison alt < hmF1 of the source: false when hmF1 is NaN. -/
def lt_hm : ℝ → Option ℝ → Prop
  | x, some v => x < v
  | _, none => False

noncomputable instance : ∀ (x : ℝ) (o : Option ℝ), Decidable (lt_hm x o)
  | x, some v => inferInstanceAs (Decidable (x < v))
  | _, none => inferInstanceAs (Decidable False)

/-- Modelled from the spec: the external PyIRI Epstein-family density
primitive (amplitude, peak height, thickness, altitude to a smooth density
curve); not part of this repository. -/
noncomputable def epstein_function_array (A1 hm B h : ℝ) : ℝ :=
  A1 * fexp ((h - hm) / B) / (1 + fexp ((h - hm) / B)) ^ 2

/-- Modelled from the spec: the external PyIRI Epstein topside primitive;
not part of this repository. -/
noncomputable def epstein_function_top_array (A1 hm B h : ℝ) : ℝ :=
  epstein_function_array A1 hm B h

/-- Default replacement of a nonpositive F1 bottom thickness by 10 km,
mirroring lib.py line 728. -/
noncomputable def fix_B_F1_bot (b : ℝ) : ℝ := if b ≤ 0 then 10 else b

/-- Default replacement of a nonpositive F2 top thickness by 30 km,
mirroring lib.py line 729. -/
noncomputable def fix_B_F2_top (b : ℝ) : ℝ := if b ≤ 0 then 30 else b

/-- The F2 contribution of the builder at one (altitude, grid point): the
topside mask alt >= hmF2 (line 761), the F1-present bottomside mask
isfinite NmF1 and hmF1 <= alt < hmF2 (line 772), and the F1-absent blend
mask isnan NmF1 and hmE < alt < hmF2 (line 791); the three masks are
pairwise disjoint in the source, so a chain of conditionals is faithful. -/
noncomputable def density_F2 (p : EDPparams) (alt : ℝ) : ℝ :=
  if p.hmF2 ≤ alt then
    epstein_function_top_array (4 * p.NmF2) p.hmF2 (fix_B_F2_top p.B_F2_top)
      alt
  else if p.NmF1.isSome ∧ alt < p.hmF2 ∧ hm_le p.hmF1 alt then
    Ramakrishnan_Rawer_function p.NmF2 p.hmF2 p.B0 p.B1 alt
  else if p.NmF1.isNone ∧ alt < p.hmF2 ∧ p.hmE < alt then
    Ramakrishnan_Rawer_function p.NmF2 p.hmF2 p.B0 p.B1 alt *
      (1 - ((p.hmF2 - alt) / (p.hmF2 - p.hmE)) ^ 4)
  else 0

/-- The F1 contribution of the builder at one (altitude, grid point): only
the blend mask hmE < alt < hmF1 (line 777) contributes.  The source reads
the possibly-NaN F1 amplitude here; the embedding reads the F1 peak with
default 0, which only differs inside the NaN-propagation regime that the
real-valued embedding does not represent. -/
noncomputable def density_F1 (p : EDPparams) (alt : ℝ) : ℝ :=
  match p.hmF1 with
  | some h1 =>
      if p.hmE < alt ∧ alt < h1 then
        epstein_function_array (4 * p.NmF1.getD 0) h1
          (fix_B_F1_bot p.B_F1_bot) alt *
          (1 - ((h1 - alt) / (h1 - p.hmE)) ^ 4)
      else 0
  | none => 0

/-- The E contribution of the builder at one (altitude, grid point): the
bottomside mask alt <= hmE (line 766), the F1-present blend mask
hmE < alt < hmF1 (line 777) and the F1-absent blend mask isnan NmF1 and
hmE < alt < hmF2 (line 791).  The last assignment wins in the source, so
the F1-absent mask is tested before the blend mask. -/
noncomputable def density_E (p : EDPparams) (alt : ℝ) : ℝ :=
  if alt ≤ p.hmE then
    epstein_function_array (4 * p.NmE) p.hmE p.B_E_bot alt
  else if p.NmF1.isNone ∧ alt < p.hmF2 ∧ p.hmE < alt then
    epstein_function_array (4 * p.NmE) p.hmE p.B_E_top alt *
      (1 - ((alt - p.hmE) / (p.hmF2 - p.hmE)) ^ 4)
  else
    match p.hmF1 with
    | some h1 =>
        if p.hmE < alt ∧ alt < h1 then
          epstein_function_array (4 * p.NmE) p.hmE p.B_E_top alt *
            (1 - ((alt - p.hmE) / (h1 - p.hmE)) ^ 4)
        else 0
    | none => 0

/-- The summed density before flooring, lib.py line 799. -/
noncomputable def raw_density (p : EDPparams) (alt : ℝ) : ℝ :=
  density_F2 p alt + density_F1 p alt + density_E p alt

/-- One entry of the array returned by IRTAM_EDP_builder: the summed regime
contributions with every value at most 1 replaced by 1 (lib.py line 802). -/
noncomputable def IRTAM_EDP_element (p : EDPparams) (alt : ℝ) : ℝ :=
  if raw_density p alt ≤ 1 then 1 else raw_density p alt

/-! ## Coefficient files, time stamps and the day loop (IRTAM_read_coeff,
IRTAM_read_files, call_IRTAM_PyIRI, run_PyIRTAM; lib.py lines 209-346 and
847-1192) -/

/-- A timestamp as used by the source (datetime fields that appear in the
file-name formatting and the decimal-UT computation). -/
structure DTime where
  year : ℕ
  month : ℕ
  day : ℕ
  hour : ℕ
  minute : ℕ
  second : ℕ

/-- Zero-padded decimal rendering of a natural number, as produced by the
strftime format fields used in the source. -/
def padNat (w n : ℕ) : String :=
  let s := Nat.repr n
  String.mk (List.replicate (w - s.length) '0') ++ s

/-- The coefficient file path computed by IRTAM_read_coeff (lib.py lines
258-287): directory, then YYYY, then MMDD, then
IRTAM_param_COEFFS_YYYYMMDD_HHMMSS.ASC. -/
def coeffFileName (dir : String) (t : DTime) (param : String) : String :=
  dir ++ "/" ++ padNat 4 t.year ++ "/" ++ padNat 2 t.month ++ padNat 2 t.day
    ++ "/IRTAM_" ++ param ++ "_COEFFS_" ++ padNat 4 t.year ++ padNat 2 t.month
    ++ padNat 2 t.day ++ "_" ++ padNat 2 t.hour ++ padNat 2 t.minute
    ++ padNat 2 t.second ++ ".ASC"

/-- The local file system seen by the reader: a map from path to the 1064
numeric values of the record, none when the file does not exist. -/
def FileSystem : Type := String → Option (Fin 1064 → ℚ)

/-- IRTAM_read_files as a fallible operation: a missing file raises IOError
with the message containing the computed filename (lib.py lines 317-319);
an existing record is reshaped into the [14, 76] matrix. -/
def IRTAM_read_files (fs : FileSystem) (filename : String) :
    Except String (Fin 14 → Fin 76 → ℚ) :=
  match fs filename with
  | none => Except.error ("unknown IRTAM coefficient file: " ++ filename)
  | some r => Except.ok (F_IRTAM_of r)

/-- The four coefficient tables loaded for one time step. -/
def CoeffTables : Type :=
  (Fin 14 → Fin 76 → ℚ) × (Fin 14 → Fin 76 → ℚ) × (Fin 14 → Fin 76 → ℚ) ×
    (Fin 14 → Fin 76 → ℚ)

/-- IRTAM_read_coeff: read the B0in, B1in, foF2 and hmF2 coefficient files
in order; the first failure propagates (there is no handler in the
source). -/
def IRTAM_read_coeff (fs : FileSystem) (t : DTime) (dir : String) :
    Except String CoeffTables :=
  match IRTAM_read_files fs (coeffFileName dir t "B0in") with
  | Except.error e => Except.error e
  | Except.ok fB0 =>
    match IRTAM_read_files fs (coeffFileName dir t "B1in") with
    | Except.error e => Except.error e
    | Except.ok fB1 =>
      match IRTAM_read_files fs (coeffFileName dir t "foF2") with
      | Except.error e => Except.error e
      | Except.ok ffo =>
        match IRTAM_read_files fs (coeffFileName dir t "hmF2") with
        | Except.error e => Except.error e
        | Except.ok fhm => Except.ok (fB0, fB1, ffo, fhm)

/-- The timestamp built for one time step of run_PyIRTAM (lib.py lines
1151-1153): hour is the integer part of the decimal UT, minute the integer
part of the remainder times 60, second 0.  The UT values of the source are
nonnegative, so integer truncation is the floor. -/
def dtimeOfUT (year month day : ℕ) (t : ℚ) : DTime :=
  let hour : ℕ := (Int.floor t).toNat
  let minute : ℕ := (Int.floor ((t - (hour : ℚ)) * 60)).toNat
  ⟨year, month, day, hour, minute, 0⟩

/-- The per-day time loop of run_PyIRTAM restricted to its coefficient
loads: each step loads the four tables for its timestamp and appends them;
an error in any step propagates immediately (no handler exists anywhere in
the loop), so no partial list of results is ever returned. -/
def run_PyIRTAM_coeff_loop (fs : FileSystem) (dir : String)
    (year month day : ℕ) : List ℚ → Except String (List CoeffTables)
  | [] => Except.ok []
  | t :: rest =>
    match IRTAM_read_coeff fs (dtimeOfUT year month day t) dir with
    | Except.error e => Except.error e
    | Except.ok c =>
      match run_PyIRTAM_coeff_loop fs dir year month day rest with
      | Except.error e => Except.error e
      | Except.ok cs => Except.ok (c :: cs)

/-! ## Background fill and merge of call_IRTAM_PyIRI (lib.py lines
939-1014) -/

/-- Decimal UT of a timestamp, lib.py line 940. -/
def decimalUT (hour minute second : ℕ) : ℚ :=
  (hour : ℚ) + (minute : ℚ) / 60 + (second : ℚ) / 3600

/-- Indices of the PyIRI time array exactly equal to the given decimal UT,
mirroring np.where(aUT == UT) on line 941. -/
def timeMatches {n : ℕ} (aUT : Fin n → ℚ) (UT : ℚ) : List (Fin n) :=
  (List.finRange n).filter (fun i => decide (aUT i = UT))

/-- The one-time-frame background arrays filled at lib.py lines 971-982, in
assignment order.  B_E_bot is assigned from the F1 occurrence probability
array (line 975), not from the background E bottom thickness, which the
merge step never reads. -/
structure BackgroundFill (nG : ℕ) where
  NmF1 : Fin nG → ℚ
  NmE : Fin nG → ℚ
  hmE : Fin nG → ℚ
  B_F2_top : Fin nG → ℚ
  B_E_bot : Fin nG → ℚ
  B_E_top : Fin nG → ℚ
  P_F1 : Fin nG → ℚ
  NmEs : Fin nG → ℚ
  hmEs : Fin nG → ℚ
  B_Es_bot : Fin nG → ℚ
  B_Es_top : Fin nG → ℚ

/-- The background fill of call_IRTAM_PyIRI: the time index is selected by
exact equality of the decimal UT with an element of aUT, and the
one-time-frame arrays (shape [1, N_G]) are assigned from the background
arrays at the selected rows.  Numpy broadcasting makes the assignment
succeed exactly when one row is selected; an empty (or multiple) selection
cannot be broadcast into one row and raises. -/
def call_background_fill {n nG : ℕ} (aUT : Fin n → ℚ) (dtime : DTime)
    (f1Nm f1P f2Btop eNm ehm eBtop esNm eshm esBbot esBtop :
      Fin n → Fin nG → ℚ) : Option (BackgroundFill nG) :=
  match timeMatches aUT (decimalUT dtime.hour dtime.minute dtime.second) with
  | [i] => some ⟨f1Nm i, eNm i, ehm i, f2Btop i, f1P i, eBtop i, f1P i,
      esNm i, eshm i, esBbot i, esBtop i⟩
  | _ => none

/-- The E-region bundle returned by call_IRTAM_PyIRI (lib.py lines
1000-1003). -/
structure EResult (nG : ℕ) where
  Nm : Fin nG → ℚ
  hm : Fin nG → ℚ
  B_bot : Fin nG → ℚ
  B_top : Fin nG → ℚ

/-- Assembly of the E-region bundle from the filled one-time-frame arrays,
mirroring lib.py lines 1000-1003. -/
def call_E_result {nG : ℕ} (b : BackgroundFill nG) : EResult nG :=
  ⟨b.NmE, b.hmE, b.B_E_bot, b.B_E_top⟩

/-! ## Regime classification of the builder (lib.py lines 760-798) -/

/-- Selection condition of the F2-topside regime (line 761). -/
def reg_F2_top (p : EDPparams) (alt : ℝ) : Prop := p.hmF2 ≤ alt

/-- Selection condition of the E-bottomside regime (line 766). -/
def reg_E_bot (p : EDPparams) (alt : ℝ) : Prop := alt ≤ p.hmE

/-- Selection condition of the F1-present F2-bottomside regime (line 772). -/
def reg_F2_bot (p : EDPparams) (alt : ℝ) : Prop :=
  p.NmF1.isSome = true ∧ alt < p.hmF2 ∧ hm_le p.hmF1 alt

/-- Selection condition of the E-top/F1-bottom blend regime (line 777). -/
def reg_blend_F1 (p : EDPparams) (alt : ℝ) : Prop :=
  p.hmE < alt ∧ lt_hm alt p.hmF1

/-- Selection condition of the F1-absent E-to-F2 blend regime (line 791). -/
def reg_blend_noF1 (p : EDPparams) (alt : ℝ) : Prop :=
  p.NmF1.isNone = true ∧ alt < p.hmF2 ∧ p.hmE < alt

/-- Exactly one of the five regime selection conditions holds. -/
def exactlyOneRegime (p : EDPparams) (alt : ℝ) : Prop :=
  (reg_F2_top p alt ∧ ¬reg_E_bot p alt ∧ ¬reg_F2_bot p alt ∧
    ¬reg_blend_F1 p alt ∧ ¬reg_blend_noF1 p alt) ∨
  (¬reg_F2_top p alt ∧ reg_E_bot p alt ∧ ¬reg_F2_bot p alt ∧
    ¬reg_blend_F1 p alt ∧ ¬reg_blend_noF1 p alt) ∨
  (¬reg_F2_top p alt ∧ ¬reg_E_bot p alt ∧ reg_F2_bot p alt ∧
    ¬reg_blend_F1 p alt ∧ ¬reg_blend_noF1 p alt) ∨
  (¬reg_F2_top p alt ∧ ¬reg_E_bot p alt ∧ ¬reg_F2_bot p alt ∧
    reg_blend_F1 p alt ∧ ¬reg_blend_noF1 p alt) ∨
  (¬reg_F2_top p alt ∧ ¬reg_E_bot p alt ∧ ¬reg_F2_bot p alt ∧
    ¬reg_blend_F1 p alt ∧ reg_blend_noF1 p alt)

end PyIRTAM

namespace PyIRTAM

/-! ## Theorems for claims C2, C3, C5, C7 -/

/-- C2: for every well-formed coefficient record of 988 + 76 values, the
reshaped [14, 76] matrix has row 0 equal to row 0 of the column-major
[13, 76] reshape of the first 988 values, row 1 equal to the final 76
values, and rows 2..13 equal to rows 1..12 of the reshape; the reshape
itself is column-major (entry (j, k) is flat element j + 13 k). -/
theorem claim_C2_coeff_reshape {α : Type} (full : Fin 1064 → α) (k : Fin 76) :
    F_IRTAM_of full 0 k = F_CCIR_like (array_main full) 0 k ∧
    F_IRTAM_of full 1 k = array_add full k ∧
    (∀ j : Fin 12, F_IRTAM_of full ⟨j.1 + 2, by omega⟩ k =
      F_CCIR_like (array_main full) ⟨j.1 + 1, by omega⟩ k) ∧
    (∀ (j : Fin 13) (k2 : Fin 76),
      F_CCIR_like (array_main full) j k2 = full ⟨j.1 + 13 * k2.1, by omega⟩) ∧
    (∀ k2 : Fin 76, array_add full k2 = full ⟨988 + k2.1, by omega⟩) := by
  refine ⟨rfl, rfl, ?_, ?_, ?_⟩
  · intro j
    show F_IRTAM_of full ⟨j.1 + 2, _⟩ k = _
    simp only [F_IRTAM_of]
    rw [if_neg (by omega), if_neg (by omega)]
    congr 1
  · intro j k2
    rfl
  · intro k2
    rfl

/-- C3: the IRTAM diurnal matrix (transposed, [N_T, 14]) has, for each time
sample, entry 0 equal to row 0 of the 13-harmonic climatological diurnal
functions, entry 1 equal to (UT - TOV) * 60 + 720, and entries 2..13 equal
to climatological rows 1..12. -/
theorem claim_C3_diurnal_reorder {n : ℕ} (time_array : Fin n → ℝ) (TOV : ℝ)
    (i : Fin n) :
    IRTAM_diurnal_functions time_array TOV i 0 =
      set_diurnal_functions (time_array i) 0 ∧
    IRTAM_diurnal_functions time_array TOV i 1 =
      (time_array i - TOV) * 60 + 720 ∧
    (∀ j : Fin 12, IRTAM_diurnal_functions time_array TOV i ⟨j.1 + 2, by omega⟩
      = set_diurnal_functions (time_array i) ⟨j.1 + 1, by omega⟩) := by
  refine ⟨rfl, rfl, ?_⟩
  intro j
  show IRTAM_diurnal_functions time_array TOV i ⟨j.1 + 2, _⟩ = _
  simp only [IRTAM_diurnal_functions]
  rw [if_neg (by omega), if_neg (by omega)]
  congr 1

/-- C5: the Ramakrishnan-Rawer function computes, with x = (hmF2 - h) / B0,
the value NmF2 * exp (-(sign x * absolute x ^ B1)) / cosh x, and for B0 > 0
its value at h = hmF2 is exactly NmF2 (peak property). -/
theorem claim_C5_RR_peak (NmF2 hmF2 B0 B1 h : ℝ) (_hB0 : 0 < B0) :
    Ramakrishnan_Rawer_function NmF2 hmF2 B0 B1 h =
      NmF2 * Real.exp (-(Real.sign ((hmF2 - h) / B0) *
        |(hmF2 - h) / B0| ^ B1)) / Real.cosh ((hmF2 - h) / B0) ∧
    Ramakrishnan_Rawer_function NmF2 hmF2 B0 B1 hmF2 = NmF2 := by
  constructor
  · rfl
  · have hx : (hmF2 - hmF2) / B0 = 0 := by rw [sub_self, zero_div]
    simp [Ramakrishnan_Rawer_function, fexp, hx]

/-- Witness for C5 at a concrete input. -/
theorem claim_C5_RR_peak_witness :
    (0 : ℝ) < 50 ∧ Ramakrishnan_Rawer_function 5 300 50 2 300 = 5 :=
  ⟨by norm_num, (claim_C5_RR_peak 5 300 50 2 300 (by norm_num)).2⟩

/-- C7 counterexample: the input -2 is at most 0, yet the converted value is
0.124 * 4 * 1e11, not 1 — the floor only triggers when the converted value
itself is at most 0, which for real inputs happens only at f = 0. -/
theorem claim_C7_counterexample :
    (-2 : ℝ) ≤ 0 ∧ IRTAM_freq_to_Nm (-2) ≠ 1 := by
  constructor
  · norm_num
  · rw [IRTAM_freq_to_Nm, if_neg (by norm_num)]
    norm_num

/-- C7 amended: IRTAM_freq_to_Nm computes Nm = 0.124 * f^2 * 1e11 and floors
any resulting value at most 0 to 1; the floor triggers exactly at f = 0
(where the product is 0), while every nonzero input — negative included —
returns the unfloored positive product. -/
theorem claim_C7_freq_floor (f : ℝ) :
    (f = 0 → IRTAM_freq_to_Nm f = 1) ∧
    (f ≠ 0 → IRTAM_freq_to_Nm f = 0.124 * f ^ 2 * 1e11 ∧
      0 < IRTAM_freq_to_Nm f) := by
  constructor
  · intro hf
    rw [IRTAM_freq_to_Nm, if_pos (by rw [hf]; norm_num)]
  · intro hf
    have h2 : 0 < f ^ 2 := (sq_nonneg f).lt_of_ne (Ne.symm (pow_ne_zero 2 hf))
    have hpos : 0 < 0.124 * f ^ 2 * 1e11 := by positivity
    rw [IRTAM_freq_to_Nm, if_neg (by linarith)]
    exact ⟨rfl, hpos⟩

/-- Witness for C7 at concrete inputs 0 and 3. -/
theorem claim_C7_freq_floor_witness :
    IRTAM_freq_to_Nm 0 = 1 ∧ IRTAM_freq_to_Nm 3 = 0.124 * 3 ^ 2 * 1e11 :=
  ⟨(claim_C7_freq_floor 0).1 rfl, ((claim_C7_freq_floor 3).2 (by norm_num)).1⟩

/-- C1: every entry of the density array returned by the EDP builder is at
least 1 — never zero or negative — because after summing the regime
contributions any density at most 1 is replaced by 1. -/
theorem claim_C1_density_floor (p : EDPparams) (alt : ℝ) :
    (raw_density p alt ≤ 1 → IRTAM_EDP_element p alt = 1) ∧
    1 ≤ IRTAM_EDP_element p alt := by
  constructor
  · intro h
    rw [IRTAM_EDP_element, if_pos h]
  · rw [IRTAM_EDP_element]
    split_ifs with h
    · exact le_refl 1
    · linarith [not_le.mp h]

/-- Witness for C1 at a concrete parameter set and altitude where no regime
fires, so the raw sum is 0 and the floor raises it to 1. -/
theorem claim_C1_density_floor_witness :
    raw_density ⟨2, some 1, 3, 10, none, 1, 5, 2, 30, 10, 4, 6⟩ 5 ≤ 1 ∧
    IRTAM_EDP_element ⟨2, some 1, 3, 10, none, 1, 5, 2, 30, 10, 4, 6⟩ 5 = 1 ∧
    1 ≤ IRTAM_EDP_element ⟨2, some 1, 3, 10, none, 1, 5, 2, 30, 10, 4, 6⟩ 5 := by
  have hraw : raw_density ⟨2, some 1, 3, 10, none, 1, 5, 2, 30, 10, 4, 6⟩ 5
      ≤ 1 := by
    have h2 : density_F2 ⟨2, some 1, 3, 10, none, 1, 5, 2, 30, 10, 4, 6⟩ 5
        = 0 := by
      rw [density_F2, if_neg (by norm_num), if_neg (by simp [hm_le]),
        if_neg (by simp)]
    have h1 : density_F1 ⟨2, some 1, 3, 10, none, 1, 5, 2, 30, 10, 4, 6⟩ 5
        = 0 := by
      rw [density_F1]
    have hE : density_E ⟨2, some 1, 3, 10, none, 1, 5, 2, 30, 10, 4, 6⟩ 5
        = 0 := by
      rw [density_E, if_neg (by norm_num), if_neg (by simp)]
    rw [raw_density, h2, h1, hE]
    norm_num
  exact ⟨hraw,
    (claim_C1_density_floor ⟨2, some 1, 3, 10, none, 1, 5, 2, 30, 10, 4, 6⟩
      5).1 hraw,
    (claim_C1_density_floor ⟨2, some 1, 3, 10, none, 1, 5, 2, 30, 10, 4, 6⟩
      5).2⟩

/-- C6 counterexample: with hmF2 = 100 and hmE = 200 (an input parameter set
the claim quantifies over), the altitude 150 satisfies both the F2-topside
condition (alt >= hmF2) and the E-bottomside condition (alt <= hmE), so the
pair is not classified into exactly one regime. -/
theorem claim_C6_counterexample :
    ¬ exactlyOneRegime ⟨0, none, 0, 100, none, 200, 0, 0, 0, 0, 0, 0⟩ 150 := by
  intro h
  rcases h with ⟨_, h2, _⟩ | ⟨h1, _⟩ | ⟨_, _, h3, _⟩ | ⟨_, _, _, h4, _⟩ |
    ⟨_, _, _, _, h5⟩
  · exact h2 (by norm_num [reg_E_bot])
  · exact h1 (by norm_num [reg_F2_top])
  · simp [reg_F2_bot] at h3
  · simp [reg_blend_F1, lt_hm] at h4
  · rcases h5 with ⟨_, h5b, _⟩
    norm_num at h5b

/-- C6 amended: whenever hmF1 is defined exactly when NmF1 is finite, and
the layer heights are ordered (hmE < hmF1 < hmF2 when F1 is present,
hmE < hmF2 in any case), each (altitude, grid-point) pair satisfies the
selection condition of exactly one of the five regimes of the builder. -/
theorem claim_C6_regime_partition (p : EDPparams)
    (hiff : p.NmF1.isSome = p.hmF1.isSome)
    (hord : ∀ v, p.hmF1 = some v → p.hmE < v ∧ v < p.hmF2)
    (hEF2 : p.hmE < p.hmF2) (alt : ℝ) :
    exactlyOneRegime p alt := by
  rcases hN : p.NmF1 with _ | v1 <;> rcases hH : p.hmF1 with _ | h1
  · -- F1 absent: NmF1 and hmF1 both undefined
    rcases le_or_lt p.hmF2 alt with hge | hlt
    · refine Or.inl ⟨hge, ?_, ?_, ?_, ?_⟩
      · intro h2
        exact absurd (le_trans hge h2) (not_le.mpr hEF2)
      · intro h3
        simp [reg_F2_bot, hN] at h3
      · intro h4
        simp [reg_blend_F1, hH, lt_hm] at h4
      · intro h5
        exact absurd h5.2.1 (not_lt.mpr hge)
    · rcases le_or_lt alt p.hmE with hle | hgt
      · refine Or.inr (Or.inl ⟨not_le.mpr hlt, hle, ?_, ?_, ?_⟩)
        · intro h3
          simp [reg_F2_bot, hN] at h3
        · intro h4
          simp [reg_blend_F1, hH, lt_hm] at h4
        · intro h5
          exact absurd h5.2.2 (not_lt.mpr hle)
      · refine Or.inr (Or.inr (Or.inr (Or.inr
          ⟨not_le.mpr hlt, not_le.mpr hgt, ?_, ?_, ?_⟩)))
        · intro h3
          simp [reg_F2_bot, hN] at h3
        · intro h4
          simp [reg_blend_F1, hH, lt_hm] at h4
        · exact ⟨by simp [hN], hlt, hgt⟩
  · -- impossible: NmF1 undefined but hmF1 defined
    rw [hN, hH] at hiff
    simp at hiff
  · -- impossible: NmF1 finite but hmF1 undefined
    rw [hN, hH] at hiff
    simp at hiff
  · -- F1 present
    obtain ⟨hlo, hhi⟩ := hord h1 hH
    rcases le_or_lt p.hmF2 alt with hge | hlt
    · refine Or.inl ⟨hge, ?_, ?_, ?_, ?_⟩
      · intro h2
        exact absurd (le_trans hge h2) (not_le.mpr hEF2)
      · intro h3
        exact absurd h3.2.1 (not_lt.mpr hge)
      · intro h4
        rcases h4 with ⟨_, hb⟩
        rw [hH] at hb
        have hb2 : alt < h1 := hb
        linarith
      · intro h5
        rw [reg_blend_noF1, hN] at h5
        simp at h5
    · rcases le_or_lt h1 alt with hF1le | hF1gt
      · refine Or.inr (Or.inr (Or.inl
          ⟨not_le.mpr hlt, ?_, ⟨by simp [hN], hlt, ?_⟩, ?_, ?_⟩))
        · intro h2
          rw [reg_E_bot] at h2
          linarith
        · rw [hH]
          exact hF1le
        · intro h4
          rcases h4 with ⟨_, hb⟩
          rw [hH] at hb
          have hb2 : alt < h1 := hb
          linarith
        · intro h5
          rw [reg_blend_noF1, hN] at h5
          simp at h5
      · rcases le_or_lt alt p.hmE with hle | hgt
        · refine Or.inr (Or.inl ⟨not_le.mpr hlt, hle, ?_, ?_, ?_⟩)
          · intro h3
            rcases h3 with ⟨_, _, hc⟩
            rw [hH] at hc
            have hc2 : h1 ≤ alt := hc
            linarith
          · intro h4
            linarith [h4.1]
          · intro h5
            rw [reg_blend_noF1, hN] at h5
            simp at h5
        · refine Or.inr (Or.inr (Or.inr (Or.inl
            ⟨not_le.mpr hlt, not_le.mpr hgt, ?_, ⟨hgt, ?_⟩, ?_⟩)))
          · intro h3
            rcases h3 with ⟨_, _, hc⟩
            rw [hH] at hc
            have hc2 : h1 ≤ alt := hc
            linarith
          · rw [hH]
            exact hF1gt
          · intro h5
            rw [reg_blend_noF1, hN] at h5
            simp at h5

/-- Witness for C6 at a concrete ordered parameter set and altitude. -/
theorem claim_C6_regime_partition_witness :
    exactlyOneRegime ⟨1e12, some 1e11, 1e10, 300, some 200, 110, 100, 2, 50,
      40, 5, 7⟩ 250 :=
  claim_C6_regime_partition _ rfl
    (by
      intro v hv
      rw [Option.some_inj] at hv
      subst hv
      norm_num)
    (by norm_num) 250

/-- Helper: the numpy matrix product coincides with the Mathlib matrix
product. -/
theorem npMatmul_eq_mul {a b c : ℕ} (A : Matrix (Fin a) (Fin b) ℝ)
    (B : Matrix (Fin b) (Fin c) ℝ) : npMatmul A B = A * B := by
  funext i k
  rw [Matrix.mul_apply]
  rfl

/-- C4: each synthesized parameter map of IRTAM_density equals the matrix
product D * Table * G in that association order, with B0 then clipped to
[1, 350] and B1 to [1, 6] (so 1 ≤ B0 ≤ 350 and 1 ≤ B1 ≤ 6 hold for
arbitrary raw values), while foF2 and hmF2 are the unclipped products. -/
theorem claim_C4_synthesis_and_clamp {nT nG : ℕ}
    (G : Matrix (Fin 76) (Fin nG) ℝ) (D : Matrix (Fin nT) (Fin 14) ℝ)
    (F_B0 F_B1 F_foF2 F_hmF2 : Matrix (Fin 14) (Fin 76) ℝ)
    (i : Fin nT) (k : Fin nG) :
    (IRTAM_density_maps G D F_B0 F_B1 F_foF2 F_hmF2).B0 i k =
      npClip ((D * F_B0 * G) i k) 1 350 ∧
    (IRTAM_density_maps G D F_B0 F_B1 F_foF2 F_hmF2).B1 i k =
      npClip ((D * F_B1 * G) i k) 1 6 ∧
    (IRTAM_density_maps G D F_B0 F_B1 F_foF2 F_hmF2).foF2 i k =
      (D * F_foF2 * G) i k ∧
    (IRTAM_density_maps G D F_B0 F_B1 F_foF2 F_hmF2).hmF2 i k =
      (D * F_hmF2 * G) i k ∧
    1 ≤ (IRTAM_density_maps G D F_B0 F_B1 F_foF2 F_hmF2).B0 i k ∧
    (IRTAM_density_maps G D F_B0 F_B1 F_foF2 F_hmF2).B0 i k ≤ 350 ∧
    1 ≤ (IRTAM_density_maps G D F_B0 F_B1 F_foF2 F_hmF2).B1 i k ∧
    (IRTAM_density_maps G D F_B0 F_B1 F_foF2 F_hmF2).B1 i k ≤ 6 := by
  have hB0 : npMatmul (npMatmul D F_B0) G = D * F_B0 * G := by
    rw [npMatmul_eq_mul, npMatmul_eq_mul]
  have hB1 : npMatmul (npMatmul D F_B1) G = D * F_B1 * G := by
    rw [npMatmul_eq_mul, npMatmul_eq_mul]
  have hfo : npMatmul (npMatmul D F_foF2) G = D * F_foF2 * G := by
    rw [npMatmul_eq_mul, npMatmul_eq_mul]
  have hhm : npMatmul (npMatmul D F_hmF2) G = D * F_hmF2 * G := by
    rw [npMatmul_eq_mul, npMatmul_eq_mul]
  have hclip : ∀ x hi : ℝ, 1 ≤ hi → 1 ≤ npClip x 1 hi ∧ npClip x 1 hi ≤ hi :=
    by
    intro x hi hhi
    constructor
    · exact le_min (le_max_right x 1) hhi
    · exact min_le_right _ _
  refine ⟨?_, ?_, ?_, ?_, ?_, ?_, ?_, ?_⟩
  · simp only [IRTAM_density_maps, IRTAM_gamma, hB0]
  · simp only [IRTAM_density_maps, IRTAM_gamma, hB1]
  · simp only [IRTAM_density_maps, IRTAM_gamma, hfo]
  · simp only [IRTAM_density_maps, IRTAM_gamma, hhm]
  · exact (hclip _ 350 (by norm_num)).1
  · exact (hclip _ 350 (by norm_num)).2
  · exact (hclip _ 6 (by norm_num)).1
  · exact (hclip _ 6 (by norm_num)).2

/-- Helper: whenever the B0in coefficient file of some time step of the day
loop is absent, the whole loop returns an error. -/
theorem coeff_loop_missing (fs : FileSystem) (dir : String)
    (year month day : ℕ) :
    ∀ uts : List ℚ,
      (∃ t ∈ uts,
        fs (coeffFileName dir (dtimeOfUT year month day t) "B0in") = none) →
      ∃ msg, run_PyIRTAM_coeff_loop fs dir year month day uts =
        Except.error msg := by
  intro uts
  induction uts with
  | nil =>
    rintro ⟨t, ht, _⟩
    exact absurd ht (List.not_mem_nil t)
  | cons a rest ih =>
    rintro ⟨t, ht, hnone⟩
    rw [run_PyIRTAM_coeff_loop]
    rcases List.mem_cons.mp ht with rfl | hmem
    · have he : IRTAM_read_coeff fs (dtimeOfUT year month day t) dir =
          Except.error ("unknown IRTAM coefficient file: " ++
            coeffFileName dir (dtimeOfUT year month day t) "B0in") := by
        rw [IRTAM_read_coeff, IRTAM_read_files, hnone]
      rw [he]
      exact ⟨_, rfl⟩
    · cases h : IRTAM_read_coeff fs (dtimeOfUT year month day a) dir with
      | error e => exact ⟨e, rfl⟩
      | ok c =>
        obtain ⟨m, hm⟩ := ih ⟨t, hmem, hnone⟩
        rw [hm]
        exact ⟨m, rfl⟩

/-- C8: requesting coefficients for a missing file raises an error whose
message contains the computed filename, and inside the day loop a missing
coefficient file at any time step makes the whole run return that error
(no partial-day result and no local recovery). -/
theorem claim_C8_missing_file_aborts (fs : FileSystem) (fn dir : String)
    (year month day : ℕ) (uts : List ℚ) (hmiss : fs fn = none) :
    IRTAM_read_files fs fn =
      Except.error ("unknown IRTAM coefficient file: " ++ fn) ∧
    ((∃ t ∈ uts,
        fs (coeffFileName dir (dtimeOfUT year month day t) "B0in") = none) →
      ∃ msg, run_PyIRTAM_coeff_loop fs dir year month day uts =
        Except.error msg) := by
  constructor
  · rw [IRTAM_read_files, hmiss]
  · exact coeff_loop_missing fs dir year month day uts

/-- Witness for C8 on the empty file system and a one-step day. -/
theorem claim_C8_missing_file_aborts_witness :
    IRTAM_read_files (fun _ => none) "f" =
      Except.error ("unknown IRTAM coefficient file: " ++ "f") ∧
    ∃ msg, run_PyIRTAM_coeff_loop (fun _ => none) "d" 2021 3 5 [0] =
      Except.error msg := by
  have h := claim_C8_missing_file_aborts (fun _ => none) "f" "d" 2021 3 5
    [0] rfl
  exact ⟨h.1, h.2 ⟨0, List.mem_singleton.mpr rfl, rfl⟩⟩

/-- C9: in the merge step, the B_bot field of the returned E bundle is the
background F1 occurrence probability at the selected time index, and there
are inputs on which it differs from the background E bottom thickness
(here the constant 7 that a correct mapping would have copied): the merge
never reads the E bottom-thickness array. -/
theorem claim_C9_E_Bbot_mapping :
    (∀ (n nG : ℕ) (aUT : Fin n → ℚ) (dtime : DTime)
      (f1Nm f1P f2Btop eNm ehm eBtop esNm eshm esBbot esBtop :
        Fin n → Fin nG → ℚ) (i : Fin n) (b : BackgroundFill nG),
      timeMatches aUT (decimalUT dtime.hour dtime.minute dtime.second) =
        [i] →
      call_background_fill aUT dtime f1Nm f1P f2Btop eNm ehm eBtop esNm
        eshm esBbot esBtop = some b →
      (call_E_result b).B_bot = f1P i) ∧
    (∃ b, call_background_fill (fun _ : Fin 1 => (1 : ℚ)/2) ⟨2021, 3, 5, 0,
        30, 0⟩ ((fun _ _ => 1) : Fin 1 → Fin 1 → ℚ) (fun _ _ => 5)
        (fun _ _ => 2) (fun _ _ => 3) (fun _ _ => 4) (fun _ _ => 6)
        (fun _ _ => 8) (fun _ _ => 9) (fun _ _ => 10) (fun _ _ => 11)
        = some b ∧
      (call_E_result b).B_bot ≠ fun _ : Fin 1 => (7 : ℚ)) := by
  constructor
  · intro n nG aUT dtime f1Nm f1P f2Btop eNm ehm eBtop esNm eshm esBbot
      esBtop i b hsel hfill
    unfold call_background_fill at hfill
    rw [hsel] at hfill
    injection hfill with hx
    subst hx
    rfl
  · have hm : timeMatches (fun _ : Fin 1 => (1 : ℚ)/2)
        (decimalUT (DTime.mk 2021 3 5 0 30 0).hour
          (DTime.mk 2021 3 5 0 30 0).minute
          (DTime.mk 2021 3 5 0 30 0).second) = [0] := by
      have hfr : List.finRange 1 = [0] := by decide
      rw [timeMatches, hfr]
      simp [List.filter, decimalUT]
      norm_num
    refine ⟨⟨fun _ => 1, fun _ => 3, fun _ => 4, fun _ => 2, fun _ => 5,
      fun _ => 6, fun _ => 5, fun _ => 8, fun _ => 9, fun _ => 10,
      fun _ => 11⟩, ?_, ?_⟩
    · unfold call_background_fill
      rw [hm]
    · intro h
      have h0 := congrFun h 0
      norm_num [call_E_result] at h0

/-- Witness for C9: applying the mapping theorem at the concrete one-point
grid where the F1 probability is the constant 5. -/
theorem claim_C9_E_Bbot_mapping_witness :
    ∃ b, call_background_fill (fun _ : Fin 1 => (1 : ℚ)/2)
      ⟨2021, 3, 5, 0, 30, 0⟩ ((fun _ _ => 1) : Fin 1 → Fin 1 → ℚ)
      (fun _ _ => 5) (fun _ _ => 2) (fun _ _ => 3) (fun _ _ => 4)
      (fun _ _ => 6) (fun _ _ => 8) (fun _ _ => 9) (fun _ _ => 10)
      (fun _ _ => 11) = some b ∧
    (call_E_result b).B_bot = ((fun _ _ => 5) : Fin 1 → Fin 1 → ℚ) 0 := by
  have hm : timeMatches (fun _ : Fin 1 => (1 : ℚ)/2)
      (decimalUT (DTime.mk 2021 3 5 0 30 0).hour
        (DTime.mk 2021 3 5 0 30 0).minute
        (DTime.mk 2021 3 5 0 30 0).second) = [0] := by
    have hfr : List.finRange 1 = [0] := by decide
    rw [timeMatches, hfr]
    simp [List.filter, decimalUT]
    norm_num
  have hfill : call_background_fill (fun _ : Fin 1 => (1 : ℚ)/2)
      ⟨2021, 3, 5, 0, 30, 0⟩ ((fun _ _ => 1) : Fin 1 → Fin 1 → ℚ)
      (fun _ _ => 5) (fun _ _ => 2) (fun _ _ => 3) (fun _ _ => 4)
      (fun _ _ => 6) (fun _ _ => 8) (fun _ _ => 9) (fun _ _ => 10)
      (fun _ _ => 11) = some ⟨fun _ => 1, fun _ => 3, fun _ => 4,
        fun _ => 2, fun _ => 5, fun _ => 6, fun _ => 5, fun _ => 8,
        fun _ => 9, fun _ => 10, fun _ => 11⟩ := by
    unfold call_background_fill
    rw [hm]
  exact ⟨_, hfill,
    claim_C9_E_Bbot_mapping.1 1 1 _ _ _ _ _ _ _ _ _ _ _ _ 0 _ hm hfill⟩

/-- C10: the merge step selects its time index by exact equality of the
decimal UT of dtime with the elements of aUT; when no element matches, the
background fill fails (an empty selection cannot be broadcast into the
one-time-frame arrays), and when exactly one element matches it
succeeds. -/
theorem claim_C10_exact_time_match (n nG : ℕ) (aUT : Fin n → ℚ)
    (dtime : DTime) (f1Nm f1P f2Btop eNm ehm eBtop esNm eshm esBbot esBtop :
      Fin n → Fin nG → ℚ) :
    (timeMatches aUT (decimalUT dtime.hour dtime.minute dtime.second) = []
      → call_background_fill aUT dtime f1Nm f1P f2Btop eNm ehm eBtop esNm
        eshm esBbot esBtop = none) ∧
    (∀ i, timeMatches aUT (decimalUT dtime.hour dtime.minute dtime.second)
        = [i]
      → ∃ b, call_background_fill aUT dtime f1Nm f1P f2Btop eNm ehm eBtop
        esNm eshm esBbot esBtop = some b) := by
  constructor
  · intro h
    unfold call_background_fill
    rw [h]
  · intro i h
    unfold call_background_fill
    rw [h]
    exact ⟨_, rfl⟩

/-- Witness for C10: a one-element time array where the 01:00:00 timestamp
matches no element (fill fails) and the 00:30:00 timestamp matches exactly
one (fill succeeds). -/
theorem claim_C10_exact_time_match_witness :
    call_background_fill (fun _ : Fin 1 => (1 : ℚ)/2) ⟨2021, 3, 5, 1, 0, 0⟩
      ((fun _ _ => 1) : Fin 1 → Fin 1 → ℚ) (fun _ _ => 5) (fun _ _ => 2)
      (fun _ _ => 3) (fun _ _ => 4) (fun _ _ => 6) (fun _ _ => 8)
      (fun _ _ => 9) (fun _ _ => 10) (fun _ _ => 11) = none ∧
    ∃ b, call_background_fill (fun _ : Fin 1 => (1 : ℚ)/2)
      ⟨2021, 3, 5, 0, 30, 0⟩ ((fun _ _ => 1) : Fin 1 → Fin 1 → ℚ)
      (fun _ _ => 5) (fun _ _ => 2) (fun _ _ => 3) (fun _ _ => 4)
      (fun _ _ => 6) (fun _ _ => 8) (fun _ _ => 9) (fun _ _ => 10)
      (fun _ _ => 11) = some b := by
  have hfr : List.finRange 1 = [0] := by decide
  have hm0 : timeMatches (fun _ : Fin 1 => (1 : ℚ)/2)
      (decimalUT (DTime.mk 2021 3 5 1 0 0).hour
        (DTime.mk 2021 3 5 1 0 0).minute
        (DTime.mk 2021 3 5 1 0 0).second) = [] := by
    rw [timeMatches, hfr]
    simp [List.filter, decimalUT]
  have hm1 : timeMatches (fun _ : Fin 1 => (1 : ℚ)/2)
      (decimalUT (DTime.mk 2021 3 5 0 30 0).hour
        (DTime.mk 2021 3 5 0 30 0).minute
        (DTime.mk 2021 3 5 0 30 0).second) = [0] := by
    rw [timeMatches, hfr]
    simp [List.filter, decimalUT]
    norm_num
  exact ⟨(claim_C10_exact_time_match 1 1 _ _ _ _ _ _ _ _ _ _ _ _).1 hm0,
    (claim_C10_exact_time_match 1 1 _ _ _ _ _ _ _ _ _ _ _ _).2 0 hm1⟩

end PyIRTAM
